import Mathlib

/-!
Verification of the healthwatch-ai risk-scoring core.

Shallow embedding of:
- app/domain/models/prediction.py (HealthMetrics, RiskAssessment, RiskLevel,
  with the validation performed by each dataclass in its post-init hook),
- app/core/exceptions.py (the exception taxonomy, as far as the core uses it),
- app/domain/services/risk_scorer.py (RiskScoringService).

Python floats are embedded as exact rationals; Python round(x, 3) is embedded
as round-half-even at three decimal places, which is the documented behaviour
of the Python builtin. Machine integers are embedded as Int. A Python function
that can raise is embedded as a function into Except; each raise site becomes
an error constructor carrying the same data as the message it formats.
-/

set_option autoImplicit false

instance {ε α : Type} [DecidableEq ε] [DecidableEq α] : DecidableEq (Except ε α) :=
  fun x y =>
    match x, y with
    | .ok a, .ok b =>
        if h : a = b then .isTrue (by rw [h]) else .isFalse (by simp [h])
    | .error a, .error b =>
        if h : a = b then .isTrue (by rw [h]) else .isFalse (by simp [h])
    | .ok _, .error _ => .isFalse (by simp)
    | .error _, .ok _ => .isFalse (by simp)

/-- Risk categories for health assessment, from the RiskLevel enum.
The enum is ordered LOW, MEDIUM, HIGH, CRITICAL. -/
inductive RiskLevel where
  | low
  | medium
  | high
  | critical
deriving DecidableEq, Repr

/-- Rank of a risk level in the declared order LOW < MEDIUM < HIGH < CRITICAL. -/
def RiskLevel.rank : RiskLevel → Nat
  | .low => 0
  | .medium => 1
  | .high => 2
  | .critical => 3

/-- Patient health metrics, the field content of the HealthMetrics dataclass. -/
structure HealthMetrics where
  age : ℤ
  bmi : ℚ
  blood_pressure_systolic : ℤ
deriving DecidableEq, Repr

/-- The Python exception classes relevant to metrics construction:
ValueError (a builtin) and InvalidInputError (the application class from
app/core/exceptions.py whose docstring says it is raised when input
validation fails, and which subclasses HealthWatchException). -/
inductive PyExcClass where
  | valueError
  | invalidInputError
deriving DecidableEq, Repr

/-- The three raise sites of HealthMetrics.post-init, each carrying the
offending value that its message interpolates; the messages name the field,
reading Invalid age, Invalid BMI and Invalid blood pressure followed by the
offending value. -/
inductive ConstructionError where
  | invalidAge (age : ℤ)
  | invalidBmi (bmi : ℚ)
  | invalidBloodPressure (bp : ℤ)
deriving DecidableEq, Repr

/-- The exception class each raise site of HealthMetrics.post-init uses:
in the source every one of the three raises is a plain ValueError. -/
def ConstructionError.raisedClass : ConstructionError → PyExcClass
  | _ => PyExcClass.valueError

/-- HealthMetrics construction including the post-init validation: the checks
run in source order and the first failing check raises. -/
def mkHealthMetrics (age : ℤ) (bmi : ℚ) (bp : ℤ) :
    Except ConstructionError HealthMetrics :=
  if age < 0 ∨ age > 120 then .error (.invalidAge age)
  else if bmi < 10 ∨ bmi > 60 then .error (.invalidBmi bmi)
  else if bp < 60 ∨ bp > 250 then .error (.invalidBloodPressure bp)
  else .ok ⟨age, bmi, bp⟩

/-- The domain bounds the HealthMetrics post-init validation enforces. -/
def Valid (m : HealthMetrics) : Prop :=
  0 ≤ m.age ∧ m.age ≤ 120 ∧ 10 ≤ m.bmi ∧ m.bmi ≤ 60 ∧
    60 ≤ m.blood_pressure_systolic ∧ m.blood_pressure_systolic ≤ 250

instance (m : HealthMetrics) : Decidable (Valid m) := by
  unfold Valid; infer_instance

/-- A contributing-factor string from identify-factors, embedded as a tagged
value carrying exactly the data each f-string interpolates:
- age k renders "Age (k years) is a significant risk factor";
- bmi v c renders "BMI (v) indicates c" with v to one decimal place and c
  one of the words "overweight" or "obese";
- bloodPressure p renders "Blood pressure (p mmHg) is elevated";
- allHealthy renders the sentinel "All metrics within healthy ranges".
The four templates are pairwise distinct strings for all argument values,
so the tagged embedding is faithful to string equality. -/
inductive Factor where
  | age (years : ℤ)
  | bmi (value : ℚ) (category : String)
  | bloodPressure (mmHg : ℤ)
  | allHealthy
deriving DecidableEq, Repr

/-- Risk assessment result, the field content of the RiskAssessment dataclass. -/
structure RiskAssessment where
  risk_score : ℚ
  risk_level : RiskLevel
  confidence : ℚ
  contributing_factors : List Factor
deriving DecidableEq, Repr

/-- The raise sites of RiskAssessment.post-init, both ValueError; the
messages say that the risk score, respectively the confidence, must be
between 0 and 1, and name the offending value. -/
inductive AssessmentError where
  | invalidRiskScore (score : ℚ)
  | invalidConfidence (confidence : ℚ)
deriving DecidableEq, Repr

/-- RiskAssessment construction including the post-init range checks. -/
def mkRiskAssessment (score : ℚ) (level : RiskLevel) (conf : ℚ)
    (factors : List Factor) : Except AssessmentError RiskAssessment :=
  if ¬(0 ≤ score ∧ score ≤ 1) then .error (.invalidRiskScore score)
  else if ¬(0 ≤ conf ∧ conf ≤ 1) then .error (.invalidConfidence conf)
  else .ok ⟨score, level, conf, factors⟩

/-- Round-half-even of a rational to an integer, the tie-breaking rule of the
Python round builtin. -/
def rhe (x : ℚ) : ℤ :=
  if x - ⌊x⌋ < 1/2 then ⌊x⌋
  else if 1/2 < x - ⌊x⌋ then ⌊x⌋ + 1
  else if ⌊x⌋ % 2 = 0 then ⌊x⌋ else ⌊x⌋ + 1

/-- Python round(x, 3): round half to even at the third decimal place. -/
def roundTo3 (x : ℚ) : ℚ := (rhe (x * 1000) : ℚ) / 1000

/-- RiskScoringService private method for the age-based risk component. -/
def calculate_age_risk (age : ℤ) : ℚ :=
  if age < 30 then 0.1
  else if age < 50 then 0.3
  else if age < 65 then 0.6
  else 0.9

/-- RiskScoringService private method for the BMI-based risk component. -/
def calculate_bmi_risk (bmi : ℚ) : ℚ :=
  if bmi < 18.5 then 0.4
  else if bmi < 25 then 0.1
  else if bmi < 30 then 0.5
  else 0.8

/-- RiskScoringService private method for the blood-pressure-based risk
component. -/
def calculate_bp_risk (bp : ℤ) : ℚ :=
  if bp < 120 then 0.1
  else if bp < 130 then 0.3
  else if bp < 140 then 0.6
  else 0.9

/-- RiskScoringService private method converting a numeric score to a risk
category. -/
def categorize_risk (score : ℚ) : RiskLevel :=
  if score < 0.25 then .low
  else if score < 0.5 then .medium
  else if score < 0.75 then .high
  else .critical

/-- RiskScoringService private method listing the factors that contribute
most to risk. Each conditional append mirrors one if-block of the source;
the final conditional supplies the sentinel when the list is empty. -/
def identify_factors (m : HealthMetrics) (age_risk bmi_risk bp_risk : ℚ) :
    List Factor :=
  let factors : List Factor := []
  let factors := if age_risk > 0.5 then factors ++ [.age m.age] else factors
  let factors :=
    if bmi_risk > 0.5 then
      let bmi_category := if m.bmi < 30 then "overweight" else "obese"
      factors ++ [.bmi m.bmi bmi_category]
    else factors
  let factors :=
    if bp_risk > 0.5 then
      factors ++ [.bloodPressure m.blood_pressure_systolic]
    else factors
  if factors = [] then [.allHealthy] else factors

/-- RiskScoringService.calculate-risk: the public scoring entry point.
Logging calls are effect-free for the result and are omitted. The returned
value passes through the RiskAssessment post-init checks, so the embedding
returns Except. -/
def calculate_risk (m : HealthMetrics) : Except AssessmentError RiskAssessment :=
  let age_risk := calculate_age_risk m.age
  let bmi_risk := calculate_bmi_risk m.bmi
  let bp_risk := calculate_bp_risk m.blood_pressure_systolic
  let risk_score := age_risk * 0.3 + bmi_risk * 0.4 + bp_risk * 0.3
  let risk_level := categorize_risk risk_score
  let factors := identify_factors m age_risk bmi_risk bp_risk
  mkRiskAssessment (roundTo3 risk_score) risk_level 0.85 factors

/-- The unrounded weighted score computed at line 46 of risk-scorer. -/
def riskScoreRaw (m : HealthMetrics) : ℚ :=
  calculate_age_risk m.age * 0.3 + calculate_bmi_risk m.bmi * 0.4 +
    calculate_bp_risk m.blood_pressure_systolic * 0.3

/-- The assessment value calculate-risk assembles when the post-init checks
pass (proved below to be its result on every input). -/
def scoreAssessment (m : HealthMetrics) : RiskAssessment where
  risk_score := roundTo3 (riskScoreRaw m)
  risk_level := categorize_risk (riskScoreRaw m)
  confidence := 0.85
  contributing_factors :=
    identify_factors m (calculate_age_risk m.age) (calculate_bmi_risk m.bmi)
      (calculate_bp_risk m.blood_pressure_systolic)

/-! Basic evaluation lemmas -/

lemma rhe_intCast (n : ℤ) : rhe (n : ℚ) = n := by
  unfold rhe
  rw [Int.floor_intCast]
  norm_num

lemma roundTo3_hundredth (k : ℤ) : roundTo3 ((k : ℚ) / 100) = (k : ℚ) / 100 := by
  unfold roundTo3
  have h : ((k : ℚ) / 100) * 1000 = ((10 * k : ℤ) : ℚ) := by push_cast; ring
  rw [h, rhe_intCast]
  push_cast
  ring

/-- Each possible value of the age component, as a number of tenths. -/
lemma age_risk_tenths (a : ℤ) :
    ∃ i : ℤ, calculate_age_risk a = (i : ℚ) / 10 ∧ 1 ≤ i ∧ i ≤ 9 := by
  unfold calculate_age_risk
  split_ifs
  exacts [⟨1, by norm_num⟩, ⟨3, by norm_num⟩, ⟨6, by norm_num⟩, ⟨9, by norm_num⟩]

/-- Each possible value of the BMI component, as a number of tenths. -/
lemma bmi_risk_tenths (b : ℚ) :
    ∃ j : ℤ, calculate_bmi_risk b = (j : ℚ) / 10 ∧ 1 ≤ j ∧ j ≤ 8 := by
  unfold calculate_bmi_risk
  split_ifs
  exacts [⟨4, by norm_num⟩, ⟨1, by norm_num⟩, ⟨5, by norm_num⟩, ⟨8, by norm_num⟩]

/-- Each possible value of the blood-pressure component, as a number of
tenths. -/
lemma bp_risk_tenths (p : ℤ) :
    ∃ l : ℤ, calculate_bp_risk p = (l : ℚ) / 10 ∧ 1 ≤ l ∧ l ≤ 9 := by
  unfold calculate_bp_risk
  split_ifs
  exacts [⟨1, by norm_num⟩, ⟨3, by norm_num⟩, ⟨6, by norm_num⟩, ⟨9, by norm_num⟩]

/-- The unrounded weighted score is always an exact number of hundredths,
between 10 and 86 of them. -/
lemma riskScoreRaw_hundredths (m : HealthMetrics) :
    ∃ k : ℤ, riskScoreRaw m = (k : ℚ) / 100 ∧ 10 ≤ k ∧ k ≤ 86 := by
  obtain ⟨i, hi, hi1, hi9⟩ := age_risk_tenths m.age
  obtain ⟨j, hj, hj1, hj8⟩ := bmi_risk_tenths m.bmi
  obtain ⟨l, hl, hl1, hl9⟩ := bp_risk_tenths m.blood_pressure_systolic
  refine ⟨3 * i + 4 * j + 3 * l, ?_, by omega, by omega⟩
  unfold riskScoreRaw
  rw [hi, hj, hl]
  push_cast
  norm_num
  ring

/-- Rounding to three decimals leaves the weighted score unchanged. -/
lemma roundTo3_riskScoreRaw (m : HealthMetrics) :
    roundTo3 (riskScoreRaw m) = riskScoreRaw m := by
  obtain ⟨k, hk, _, _⟩ := riskScoreRaw_hundredths m
  rw [hk, roundTo3_hundredth]

/-- The weighted score lies between 0.1 and 0.86. -/
lemma riskScoreRaw_bounds (m : HealthMetrics) :
    (0.1 : ℚ) ≤ riskScoreRaw m ∧ riskScoreRaw m ≤ 0.86 := by
  obtain ⟨k, hk, hk10, hk86⟩ := riskScoreRaw_hundredths m
  have h10 : (10 : ℚ) ≤ (k : ℚ) := by exact_mod_cast hk10
  have h86 : (k : ℚ) ≤ 86 := by exact_mod_cast hk86
  rw [hk]
  constructor <;> [norm_num; skip] <;> linarith

/-- calculate-risk never raises: the post-init checks of RiskAssessment pass
on every input, and the result is the assembled assessment value. -/
lemma calculate_risk_eq_ok (m : HealthMetrics) :
    calculate_risk m = .ok (scoreAssessment m) := by
  have hb := riskScoreRaw_bounds m
  have hr := roundTo3_riskScoreRaw m
  unfold calculate_risk mkRiskAssessment scoreAssessment
  dsimp only
  have hscore : riskScoreRaw m =
      calculate_age_risk m.age * 0.3 + calculate_bmi_risk m.bmi * 0.4 +
        calculate_bp_risk m.blood_pressure_systolic * 0.3 := rfl
  rw [← hscore, if_neg, if_neg]
  · push_neg
    norm_num
  · push_neg
    rw [hr]
    refine ⟨by linarith [hb.1], by linarith [hb.2]⟩

/-! Claim theorems -/

/-- C2: the claim is right and the code is wrong. Construction does fail for
age=-1, age=121, bmi=9.9, bmi=60.1, bp=59, bp=251 independently, naming the
violating field and offending value, and succeeds on the closed bounds; but
every raise site uses the builtin ValueError, not InvalidInputError, the
application class whose own docstring reserves it for input-validation
failure. This theorem evaluates the embedded constructor at the failing
inputs and records the raised class. -/
theorem c2_construction_raises_builtin_valueError :
    mkHealthMetrics (-1) 22 110 = .error (.invalidAge (-1)) ∧
    mkHealthMetrics 121 22 110 = .error (.invalidAge 121) ∧
    mkHealthMetrics 40 9.9 110 = .error (.invalidBmi 9.9) ∧
    mkHealthMetrics 40 60.1 110 = .error (.invalidBmi 60.1) ∧
    mkHealthMetrics 40 22 59 = .error (.invalidBloodPressure 59) ∧
    mkHealthMetrics 40 22 251 = .error (.invalidBloodPressure 251) ∧
    mkHealthMetrics 0 10 60 = .ok ⟨0, 10, 60⟩ ∧
    mkHealthMetrics 120 60 250 = .ok ⟨120, 60, 250⟩ ∧
    (ConstructionError.invalidAge (-1)).raisedClass = .valueError ∧
    PyExcClass.valueError ≠ PyExcClass.invalidInputError := by
  refine ⟨?_, ?_, ?_, ?_, ?_, ?_, ?_, ?_, rfl, by decide⟩ <;>
    norm_num [mkHealthMetrics]

/-- C3: the three component risk functions are exact ladders of strict
comparisons, first matching band wins: the four bands of each function take
the stated constant values, and the boundary inputs land in the upper band. -/
theorem c3_component_risk_ladders :
    (∀ a : ℤ, a < 30 → calculate_age_risk a = 0.1) ∧
    (∀ a : ℤ, 30 ≤ a → a < 50 → calculate_age_risk a = 0.3) ∧
    (∀ a : ℤ, 50 ≤ a → a < 65 → calculate_age_risk a = 0.6) ∧
    (∀ a : ℤ, 65 ≤ a → calculate_age_risk a = 0.9) ∧
    (∀ b : ℚ, b < 18.5 → calculate_bmi_risk b = 0.4) ∧
    (∀ b : ℚ, 18.5 ≤ b → b < 25 → calculate_bmi_risk b = 0.1) ∧
    (∀ b : ℚ, 25 ≤ b → b < 30 → calculate_bmi_risk b = 0.5) ∧
    (∀ b : ℚ, 30 ≤ b → calculate_bmi_risk b = 0.8) ∧
    (∀ p : ℤ, p < 120 → calculate_bp_risk p = 0.1) ∧
    (∀ p : ℤ, 120 ≤ p → p < 130 → calculate_bp_risk p = 0.3) ∧
    (∀ p : ℤ, 130 ≤ p → p < 140 → calculate_bp_risk p = 0.6) ∧
    (∀ p : ℤ, 140 ≤ p → calculate_bp_risk p = 0.9) ∧
    calculate_age_risk 30 = 0.3 ∧ calculate_age_risk 29 = 0.1 ∧
    calculate_bmi_risk 18.5 = 0.1 ∧ calculate_bmi_risk 25 = 0.5 ∧
    calculate_bmi_risk 30 = 0.8 ∧
    calculate_bp_risk 120 = 0.3 ∧ calculate_bp_risk 130 = 0.6 ∧
    calculate_bp_risk 140 = 0.9 := by
  refine ⟨?_, ?_, ?_, ?_, ?_, ?_, ?_, ?_, ?_, ?_, ?_, ?_, ?_, ?_, ?_, ?_, ?_,
    ?_, ?_, ?_⟩
  all_goals intros
  all_goals simp only [calculate_age_risk, calculate_bmi_risk, calculate_bp_risk]
  all_goals split_ifs <;> first | rfl | (exfalso; omega) | (exfalso; linarith)

/-- C3 witness: one input per kind of band hypothesis. -/
theorem c3_witness :
    calculate_age_risk 40 = 0.3 ∧ calculate_bmi_risk 22 = 0.1 ∧
    calculate_bp_risk 150 = 0.9 :=
  ⟨c3_component_risk_ladders.2.1 40 (by decide) (by decide),
   c3_component_risk_ladders.2.2.2.2.2.1 22 (by norm_num) (by norm_num),
   c3_component_risk_ladders.2.2.2.2.2.2.2.2.2.2.2.1 150 (by decide)⟩

/-- C4: the score-to-level mapping is total over the four ordered categories,
evaluated ascending with first match winning and boundaries exclusive on the
upper side: below 0.25 LOW, then below 0.50 MEDIUM, then below 0.75 HIGH,
otherwise CRITICAL. -/
theorem c4_categorize_bands :
    (∀ s : ℚ, s < 0.25 → categorize_risk s = .low) ∧
    (∀ s : ℚ, 0.25 ≤ s → s < 0.5 → categorize_risk s = .medium) ∧
    (∀ s : ℚ, 0.5 ≤ s → s < 0.75 → categorize_risk s = .high) ∧
    (∀ s : ℚ, 0.75 ≤ s → categorize_risk s = .critical) := by
  refine ⟨?_, ?_, ?_, ?_⟩
  all_goals intros
  all_goals simp only [categorize_risk]
  all_goals split_ifs <;> first | rfl | (exfalso; linarith)

/-- C4 witness: one input per band, including the boundary values 0.25, 0.5
and 0.75 landing in the upper band. -/
theorem c4_witness :
    categorize_risk 0.1 = .low ∧ categorize_risk 0.25 = .medium ∧
    categorize_risk 0.5 = .high ∧ categorize_risk 0.75 = .critical :=
  ⟨c4_categorize_bands.1 0.1 (by norm_num),
   c4_categorize_bands.2.1 0.25 (by norm_num) (by norm_num),
   c4_categorize_bands.2.2.1 0.5 (by norm_num) (by norm_num),
   c4_categorize_bands.2.2.2 0.75 (by norm_num)⟩

/-- C1 counterexample: rounding is NOT applied before categorization. The
categorization step of calculate-risk receives the unrounded weighted score,
so a raw weighted score of 0.2499999 is categorized as LOW, while rounding it
first gives 0.25, whose category is MEDIUM, as the claim demands. -/
theorem c1_counterexample :
    categorize_risk 0.2499999 = RiskLevel.low ∧
    roundTo3 0.2499999 = 0.25 ∧
    categorize_risk 0.25 = RiskLevel.medium := by
  refine ⟨by norm_num [categorize_risk], ?_, by norm_num [categorize_risk]⟩
  have hf : ⌊((0.2499999 : ℚ) * 1000)⌋ = 249 := by
    rw [Int.floor_eq_iff]
    norm_num
  unfold roundTo3 rhe
  rw [hf]
  norm_num

/-- C1 amended: rounding to 3 decimals is applied after categorization, to
the reported score only; the returned risk level is the category of the
unrounded weighted score. Nevertheless, for every valid Metrics instance the
unrounded score is an exact multiple of 0.01, rounding leaves it unchanged,
and the returned level coincides with the category of the rounded score. -/
theorem c1_level_is_category_of_unrounded_score (m : HealthMetrics)
    (hm : Valid m) :
    (scoreAssessment m).risk_level = categorize_risk (riskScoreRaw m) ∧
    roundTo3 (riskScoreRaw m) = riskScoreRaw m ∧
    (scoreAssessment m).risk_level = categorize_risk (roundTo3 (riskScoreRaw m)) :=
  ⟨rfl, roundTo3_riskScoreRaw m, by rw [roundTo3_riskScoreRaw]; exact rfl⟩

/-- C1 witness: the amended statement at age 25, BMI 22, BP 110. -/
theorem c1_witness :
    (scoreAssessment ⟨25, 22, 110⟩).risk_level =
      categorize_risk (riskScoreRaw ⟨25, 22, 110⟩) ∧
    roundTo3 (riskScoreRaw ⟨25, 22, 110⟩) = riskScoreRaw ⟨25, 22, 110⟩ ∧
    (scoreAssessment ⟨25, 22, 110⟩).risk_level =
      categorize_risk (roundTo3 (riskScoreRaw ⟨25, 22, 110⟩)) :=
  c1_level_is_category_of_unrounded_score ⟨25, 22, 110⟩ (by decide)

/-- The identify-factors method, characterized as the spec states it: one
factor per component risk strictly above 0.5, in age, BMI, blood-pressure
order, with the BMI wording chosen by the 30 threshold, and the sentinel
exactly when no component qualifies. -/
lemma identify_factors_spec (m : HealthMetrics) (a b p : ℚ) :
    identify_factors m a b p =
      if a ≤ 0.5 ∧ b ≤ 0.5 ∧ p ≤ 0.5 then [Factor.allHealthy]
      else
        (if 0.5 < a then [Factor.age m.age] else []) ++
        (if 0.5 < b then
          [Factor.bmi m.bmi (if m.bmi < 30 then "overweight" else "obese")]
        else []) ++
        (if 0.5 < p then [Factor.bloodPressure m.blood_pressure_systolic]
        else []) := by
  unfold identify_factors
  dsimp only
  by_cases ha : (0.5 : ℚ) < a <;> by_cases hb : (0.5 : ℚ) < b <;>
    by_cases hp : (0.5 : ℚ) < p
  · simp [ha, hb, hp, not_le.mpr ha, not_le.mpr hb, not_le.mpr hp,
      List.append_assoc]
  · simp [ha, hb, hp, not_le.mpr ha, not_le.mpr hb, not_lt.mp hp,
      List.append_assoc]
  · simp [ha, hb, hp, not_le.mpr ha, not_lt.mp hb, not_le.mpr hp,
      List.append_assoc]
  · simp [ha, hb, hp, not_le.mpr ha, not_lt.mp hb, not_lt.mp hp,
      List.append_assoc]
  · simp [ha, hb, hp, not_lt.mp ha, not_le.mpr hb, not_le.mpr hp,
      List.append_assoc]
  · simp [ha, hb, hp, not_lt.mp ha, not_le.mpr hb, not_lt.mp hp,
      List.append_assoc]
  · simp [ha, hb, hp, not_lt.mp ha, not_lt.mp hb, not_le.mpr hp,
      List.append_assoc]
  · simp [ha, hb, hp, not_lt.mp ha, not_lt.mp hb, not_lt.mp hp,
      List.append_assoc]

/-- C6: the contributing factors of the returned assessment are one factor
per component risk strictly above 0.5, in the fixed order age, BMI, blood
pressure, with the BMI wording chosen by comparing the BMI itself with 30,
and exactly the sentinel when no component risk exceeds 0.5. -/
theorem c6_contributing_factors (m : HealthMetrics) :
    (scoreAssessment m).contributing_factors =
      if calculate_age_risk m.age ≤ 0.5 ∧ calculate_bmi_risk m.bmi ≤ 0.5 ∧
          calculate_bp_risk m.blood_pressure_systolic ≤ 0.5 then
        [Factor.allHealthy]
      else
        (if 0.5 < calculate_age_risk m.age then [Factor.age m.age] else []) ++
        (if 0.5 < calculate_bmi_risk m.bmi then
          [Factor.bmi m.bmi (if m.bmi < 30 then "overweight" else "obese")]
        else []) ++
        (if 0.5 < calculate_bp_risk m.blood_pressure_systolic then
          [Factor.bloodPressure m.blood_pressure_systolic]
        else []) :=
  identify_factors_spec m _ _ _

/-- The BMI component risk exceeds the 0.5 significance threshold exactly in
the obese band. -/
lemma bmi_risk_gt_half_iff (b : ℚ) :
    0.5 < calculate_bmi_risk b ↔ 30 ≤ b := by
  unfold calculate_bmi_risk
  split_ifs <;> constructor <;> intro h <;> linarith

/-- C10: a BMI factor appears in the output iff the BMI is at least 30, and
any BMI factor in the output carries the obese wording; the overweight
wording is unreachable because the overweight band risk is exactly 0.5 and
the factor test is strict. -/
theorem c10_bmi_factor_obese_only (m : HealthMetrics) :
    ((∃ c, Factor.bmi m.bmi c ∈ (scoreAssessment m).contributing_factors) ↔
      30 ≤ m.bmi) ∧
    (∀ v c, Factor.bmi v c ∈ (scoreAssessment m).contributing_factors →
      c = "obese") := by
  have hfs : (scoreAssessment m).contributing_factors =
      identify_factors m (calculate_age_risk m.age) (calculate_bmi_risk m.bmi)
        (calculate_bp_risk m.blood_pressure_systolic) := rfl
  rw [hfs, identify_factors_spec]
  have hiff := bmi_risk_gt_half_iff m.bmi
  by_cases hb : (30 : ℚ) ≤ m.bmi
  · have hgt : 0.5 < calculate_bmi_risk m.bmi := hiff.mpr hb
    have hword : (if m.bmi < 30 then "overweight" else "obese") = "obese" :=
      if_neg (not_lt.mpr hb)
    by_cases ha : 0.5 < calculate_age_risk m.age <;>
      by_cases hp : 0.5 < calculate_bp_risk m.blood_pressure_systolic <;>
      simp [ha, hp, hgt, hb, hword, not_le.mpr hgt]
  · have hng : ¬0.5 < calculate_bmi_risk m.bmi := fun h => hb (hiff.mp h)
    have hle : calculate_bmi_risk m.bmi ≤ 0.5 := not_lt.mp hng
    by_cases ha : 0.5 < calculate_age_risk m.age <;>
      by_cases hp : 0.5 < calculate_bp_risk m.blood_pressure_systolic
    · simp [ha, hp, hng, hb, not_le.mpr ha, not_le.mpr hp]
    · simp [ha, hp, hng, hb, not_le.mpr ha, not_lt.mp hp, hle]
    · simp [ha, hp, hng, hb, not_lt.mp ha, not_le.mpr hp, hle]
    · simp [ha, hp, hng, hb, not_lt.mp ha, not_lt.mp hp, hle]

/-- Evaluation of the all-healthy example input. -/
lemma scoreAssessment_healthy :
    scoreAssessment ⟨25, 22, 110⟩ = ⟨0.1, .low, 0.85, [.allHealthy]⟩ := by
  have ha : calculate_age_risk 25 = 0.1 := by norm_num [calculate_age_risk]
  have hbm : calculate_bmi_risk 22 = 0.1 := by norm_num [calculate_bmi_risk]
  have hp : calculate_bp_risk 110 = 0.1 := by norm_num [calculate_bp_risk]
  have hraw : riskScoreRaw ⟨25, 22, 110⟩ = 0.1 := by
    unfold riskScoreRaw
    dsimp only
    rw [ha, hbm, hp]
    norm_num
  have hcast : (0.1 : ℚ) = ((10 : ℤ) : ℚ) / 100 := by norm_num
  have hround : roundTo3 (0.1 : ℚ) = 0.1 := by
    rw [hcast]
    exact roundTo3_hundredth 10
  unfold scoreAssessment
  dsimp only
  rw [hraw, hround, ha, hbm, hp]
  norm_num [categorize_risk, identify_factors]

/-- Evaluation of the all-elevated example input. -/
lemma scoreAssessment_critical :
    scoreAssessment ⟨70, 32, 145⟩ =
      ⟨0.86, .critical, 0.85, [.age 70, .bmi 32 "obese", .bloodPressure 145]⟩ := by
  have ha : calculate_age_risk 70 = 0.9 := by norm_num [calculate_age_risk]
  have hbm : calculate_bmi_risk 32 = 0.8 := by norm_num [calculate_bmi_risk]
  have hp : calculate_bp_risk 145 = 0.9 := by norm_num [calculate_bp_risk]
  have hraw : riskScoreRaw ⟨70, 32, 145⟩ = 0.86 := by
    unfold riskScoreRaw
    dsimp only
    rw [ha, hbm, hp]
    norm_num
  have hcast : (0.86 : ℚ) = ((86 : ℤ) : ℚ) / 100 := by norm_num
  have hround : roundTo3 (0.86 : ℚ) = 0.86 := by
    rw [hcast]
    exact roundTo3_hundredth 86
  unfold scoreAssessment
  dsimp only
  rw [hraw, hround, ha, hbm, hp]
  norm_num [categorize_risk, identify_factors]
  intro hc
  exact absurd hc (List.cons_ne_nil _ _)

/-- C5: the combined score is the fixed weighted average with weights 0.3,
0.4, 0.3 summing to 1, rounded to 3 decimals; the all-healthy example yields
exactly 0.1, LOW and the sentinel factor, and the all-elevated example yields
0.86, CRITICAL and all three factors in age, BMI, blood-pressure order. -/
theorem c5_weighted_combination :
    ((0.3 : ℚ) + 0.4 + 0.3 = 1) ∧
    (∀ m : HealthMetrics, ∃ r : RiskAssessment, calculate_risk m = .ok r ∧
      r.risk_score = roundTo3 (0.3 * calculate_age_risk m.age +
        0.4 * calculate_bmi_risk m.bmi +
        0.3 * calculate_bp_risk m.blood_pressure_systolic)) ∧
    calculate_risk ⟨25, 22, 110⟩ = .ok ⟨0.1, .low, 0.85, [.allHealthy]⟩ ∧
    calculate_risk ⟨70, 32, 145⟩ =
      .ok ⟨0.86, .critical, 0.85,
        [.age 70, .bmi 32 "obese", .bloodPressure 145]⟩ := by
  refine ⟨by norm_num, ?_, ?_, ?_⟩
  · intro m
    refine ⟨scoreAssessment m, calculate_risk_eq_ok m, ?_⟩
    show roundTo3 (riskScoreRaw m) = _
    unfold riskScoreRaw
    congr 1
    ring
  · rw [calculate_risk_eq_ok, scoreAssessment_healthy]
  · rw [calculate_risk_eq_ok, scoreAssessment_critical]

/-- C7: for every valid Metrics instance, scoring succeeds with a risk score
in the closed interval from 0 to 1 and a confidence equal to the fixed
constant 0.85, which lies in the closed interval from 0 to 1. -/
theorem c7_score_and_confidence_bounds (m : HealthMetrics) (hm : Valid m) :
    ∃ r : RiskAssessment, calculate_risk m = .ok r ∧
      0 ≤ r.risk_score ∧ r.risk_score ≤ 1 ∧
      r.confidence = 0.85 ∧ 0 ≤ r.confidence ∧ r.confidence ≤ 1 := by
  refine ⟨scoreAssessment m, calculate_risk_eq_ok m, ?_, ?_, rfl, ?_, ?_⟩
  · show (0 : ℚ) ≤ roundTo3 (riskScoreRaw m)
    rw [roundTo3_riskScoreRaw]
    have hlo := (riskScoreRaw_bounds m).1
    linarith
  · show roundTo3 (riskScoreRaw m) ≤ 1
    rw [roundTo3_riskScoreRaw]
    have hhi := (riskScoreRaw_bounds m).2
    linarith
  · show (0 : ℚ) ≤ 0.85
    norm_num
  · show (0.85 : ℚ) ≤ 1
    norm_num

/-- C7 witness at age 40, BMI 22, BP 110. -/
theorem c7_witness :
    ∃ r : RiskAssessment, calculate_risk ⟨40, 22, 110⟩ = .ok r ∧
      0 ≤ r.risk_score ∧ r.risk_score ≤ 1 ∧
      r.confidence = 0.85 ∧ 0 ≤ r.confidence ∧ r.confidence ≤ 1 :=
  c7_score_and_confidence_bounds ⟨40, 22, 110⟩ (by decide)

/-- The age component is monotone in age. -/
lemma age_risk_mono {a a' : ℤ} (h : a ≤ a') :
    calculate_age_risk a ≤ calculate_age_risk a' := by
  unfold calculate_age_risk
  split_ifs <;> first | (exfalso; omega) | norm_num


/-- The blood-pressure component is monotone in systolic pressure. -/
lemma bp_risk_mono {p p' : ℤ} (h : p ≤ p') :
    calculate_bp_risk p ≤ calculate_bp_risk p' := by
  unfold calculate_bp_risk
  split_ifs <;> first | (exfalso; omega) | norm_num

/-- Categorization is monotone with respect to the category rank. -/
lemma categorize_risk_mono {s s' : ℚ} (h : s ≤ s') :
    (categorize_risk s).rank ≤ (categorize_risk s').rank := by
  unfold categorize_risk
  split_ifs <;> first | (exfalso; linarith) | simp [RiskLevel.rank]

/-- A weighted-score comparison gives a category-rank comparison for the
levels the service returns. -/
lemma rank_mono_of_raw_le {m m' : HealthMetrics}
    (h : riskScoreRaw m ≤ riskScoreRaw m') :
    (scoreAssessment m).risk_level.rank ≤
      (scoreAssessment m').risk_level.rank :=
  categorize_risk_mono h

/-- C8 counterexample: increasing the BMI input alone can decrease the risk
level. At age 25 and BP 125, BMI 15 is underweight (component risk 0.4,
score 0.28, MEDIUM) while BMI 22 is normal (component risk 0.1, score 0.16,
LOW), so raising BMI from 15 to 22 drops the rank. -/
theorem c8_counterexample :
    Valid ⟨25, 15, 125⟩ ∧ Valid ⟨25, 22, 125⟩ ∧ (15 : ℚ) ≤ 22 ∧
    (scoreAssessment ⟨25, 15, 125⟩).risk_level = RiskLevel.medium ∧
    (scoreAssessment ⟨25, 22, 125⟩).risk_level = RiskLevel.low ∧
    RiskLevel.low.rank < RiskLevel.medium.rank := by
  refine ⟨by decide, by decide, by norm_num, ?_, ?_, by decide⟩
  · show categorize_risk (riskScoreRaw ⟨25, 15, 125⟩) = _
    have h1 : riskScoreRaw ⟨25, 15, 125⟩ = 0.28 := by
      norm_num [riskScoreRaw, calculate_age_risk, calculate_bmi_risk,
        calculate_bp_risk]
    rw [h1]
    norm_num [categorize_risk]
  · show categorize_risk (riskScoreRaw ⟨25, 22, 125⟩) = _
    have h2 : riskScoreRaw ⟨25, 22, 125⟩ = 0.16 := by
      norm_num [riskScoreRaw, calculate_age_risk, calculate_bmi_risk,
        calculate_bp_risk]
    rw [h2]
    norm_num [categorize_risk]

/-- C8 amended: within the valid domain, increasing the age input alone or
the systolic BP input alone never decreases the risk-level rank, and
increasing the BMI component risk never decreases the rank; monotonicity in
the raw BMI input fails because the underweight band has risk 0.4 while the
normal band has risk 0.1. -/
theorem c8_monotonicity (m : HealthMetrics) (a' : ℤ) (b' : ℚ) (p' : ℤ)
    (hm : Valid m) :
    (Valid {m with age := a'} → m.age ≤ a' →
      (scoreAssessment m).risk_level.rank ≤
        (scoreAssessment {m with age := a'}).risk_level.rank) ∧
    (Valid {m with bmi := b'} →
      calculate_bmi_risk m.bmi ≤ calculate_bmi_risk b' →
      (scoreAssessment m).risk_level.rank ≤
        (scoreAssessment {m with bmi := b'}).risk_level.rank) ∧
    (Valid {m with blood_pressure_systolic := p'} →
      m.blood_pressure_systolic ≤ p' →
      (scoreAssessment m).risk_level.rank ≤
        (scoreAssessment {m with blood_pressure_systolic := p'}).risk_level.rank) := by
  refine ⟨fun _ h => rank_mono_of_raw_le ?_, fun _ h => rank_mono_of_raw_le ?_,
    fun _ h => rank_mono_of_raw_le ?_⟩
  · unfold riskScoreRaw
    dsimp only
    linarith [age_risk_mono h]
  · unfold riskScoreRaw
    dsimp only
    linarith [h]
  · unfold riskScoreRaw
    dsimp only
    linarith [bp_risk_mono h]

/-- C8 witness: the amended statement at age 40, BMI 22, BP 110, raising age
to 65, BMI to 32 and BP to 145 one at a time. -/
theorem c8_witness :
    (scoreAssessment ⟨40, 22, 110⟩).risk_level.rank ≤
      (scoreAssessment ⟨65, 22, 110⟩).risk_level.rank ∧
    (scoreAssessment ⟨40, 22, 110⟩).risk_level.rank ≤
      (scoreAssessment ⟨40, 32, 110⟩).risk_level.rank ∧
    (scoreAssessment ⟨40, 22, 110⟩).risk_level.rank ≤
      (scoreAssessment ⟨40, 22, 145⟩).risk_level.rank :=
  ⟨(c8_monotonicity ⟨40, 22, 110⟩ 65 32 145 (by decide)).1 (by decide)
      (by decide),
   (c8_monotonicity ⟨40, 22, 110⟩ 65 32 145 (by decide)).2.1 (by decide)
      (by norm_num [calculate_bmi_risk]),
   (c8_monotonicity ⟨40, 22, 110⟩ 65 32 145 (by decide)).2.2 (by decide)
      (by decide)⟩

/-- C9: scoring is total on valid metrics: calculate-risk never raises, the
RiskAssessment post-init range checks pass, and the result is the assembled
assessment value. -/
theorem c9_score_total (m : HealthMetrics) (hm : Valid m) :
    calculate_risk m = Except.ok (scoreAssessment m) :=
  calculate_risk_eq_ok m

/-- C9 witness at age 40, BMI 22, BP 110. -/
theorem c9_witness :
    calculate_risk ⟨40, 22, 110⟩ = Except.ok (scoreAssessment ⟨40, 22, 110⟩) :=
  c9_score_total ⟨40, 22, 110⟩ (by decide)

/-- C10 witness: at age 70, BMI 32, BP 145 a BMI factor is present. -/
theorem c10_witness :
    ∃ c, Factor.bmi 32 c ∈ (scoreAssessment ⟨70, 32, 145⟩).contributing_factors :=
  (c10_bmi_factor_obese_only ⟨70, 32, 145⟩).1.mpr (by norm_num)

/-- C2 auxiliary: on every in-bounds triple, construction succeeds with the
field values recorded unchanged. -/
lemma mkHealthMetrics_ok (a : ℤ) (b : ℚ) (p : ℤ)
    (h : Valid ⟨a, b, p⟩) : mkHealthMetrics a b p = .ok ⟨a, b, p⟩ := by
  obtain ⟨h1, h2, h3, h4, h5, h6⟩ := h
  unfold mkHealthMetrics
  rw [if_neg, if_neg, if_neg] <;> push_neg <;>
    exact ⟨by assumption, by assumption⟩
